import Mathlib

/-!
Verification of the monstr relay core (`src/monstr/relay/relay.py`).

The development shallowly embeds the relay's data model and its handlers:

* `J` models Python/JSON values as they come out of `json.loads`.
* `relayInit` embeds the configuration part of `Relay.__init__`
  (lines 100-127 of `relay.py`): pubkey validation, the `supported_nips`
  list, and the relay-information document.
* `do_request` / `do_event` / `do_sub` / `do_unsub` / `check_subs` embed
  the command dispatcher and its handlers.  Stateful Python code becomes
  explicit state passing on `RelayState`; a raised Python exception that
  escapes a handler is the `err` field of the result.
* A small cooperative scheduler (`Proc`, `runSched`) embeds the asyncio
  task semantics that `_do_sub` / `_send_event` / `_check_subs` rely on,
  for the ordering claims about backfill, EOSE and live fan-out.

External collaborators (the `monstr` library primitives, the event store,
`json.loads`, the socket) are either parameters of the embedding or are
modelled from the spec; every such modelling is marked in its doc comment.
-/

namespace Monstr

/-- Python/JSON values, the result type of `json.loads`.  Numbers are
modelled as integers (no claim touches float payloads); objects keep the
insertion order of their fields, as Python dicts do. -/
inductive J where
  | null : J
  | bool : Bool → J
  | num : Int → J
  | str : String → J
  | arr : List J → J
  | obj : List (String × J) → J
deriving Repr

mutual

/-- Structural equality on JSON values (Python `==` on decoded values). -/
def J.beq : J → J → Bool
  | .null, .null => true
  | .bool a, .bool b => a == b
  | .num a, .num b => a == b
  | .str a, .str b => a == b
  | .arr a, .arr b => J.beqList a b
  | .obj a, .obj b => J.beqObj a b
  | _, _ => false

/-- Element-wise equality of JSON arrays. -/
def J.beqList : List J → List J → Bool
  | [], [] => true
  | a :: as, b :: bs => J.beq a b && J.beqList as bs
  | _, _ => false

/-- Field-wise equality of JSON objects. -/
def J.beqObj : List (String × J) → List (String × J) → Bool
  | [], [] => true
  | (k1, v1) :: as, (k2, v2) :: bs => k1 == k2 && J.beq v1 v2 && J.beqObj as bs
  | _, _ => false

end

instance : BEq J := ⟨J.beq⟩

/-- Python truthiness test (`if not as_json`) on a decoded JSON value:
`None`, `False`, `0`, `""`, `[]` and `{}` are falsy. -/
def J.falsy : J → Bool
  | .null => true
  | .bool b => !b
  | .num n => n == 0
  | .str s => s.isEmpty
  | .arr xs => xs.isEmpty
  | .obj fs => fs.isEmpty

/-- Whether a decoded value equals (by Python `==`) one of the given
strings; used for `cmd not in Relay.VALID_CMDS`.  A non-string value never
equals a string in Python. -/
def J.isStrIn (v : J) (ss : List String) : Bool :=
  match v with
  | .str s => ss.contains s
  | _ => false

/-- List-level prefix test used by the substring helper. -/
def listIsPrefix : List Char → List Char → Bool
  | [], _ => true
  | _ :: _, [] => false
  | a :: as, b :: bs => a == b && listIsPrefix as bs

/-- List-level substring occurrence test. -/
def listSubIn (needle : List Char) : List Char → Bool
  | [] => needle.isEmpty
  | c :: rest => listIsPrefix needle (c :: rest) || listSubIn needle rest

/-- Python `needle in hay` on strings. -/
def strIn (needle hay : String) : Bool :=
  listSubIn needle.toList hay.toList

/-- ASCII lower-casing of one character. -/
def lowerChar (c : Char) : Char :=
  if 'A' ≤ c && c ≤ 'Z' then Char.ofNat (c.toNat + 32) else c

/-- Python `str.lower()` for the ASCII error messages the relay
inspects. -/
def strLower (s : String) : String :=
  String.mk (s.toList.map lowerChar)

/-- Hex-digit test for key validation. -/
def isHexChar (c : Char) : Bool :=
  c.isDigit || ('a' ≤ c && c ≤ 'f') || ('A' ≤ c && c ≤ 'F')

/-- Modelled from the spec: `Keys.is_key` lives in `monstr.encrypt`, which
is not under `src/`.  The spec (§4.2) says `is_key(s) → bool (hex, correct
length)`; a nostr public key is 64 hex characters. -/
def is_key (s : String) : Bool :=
  s.length == 64 && s.toList.all isHexChar

/-- Ordered insertion, the work horse of the sort embedding. -/
def insertSorted (n : Nat) : List Nat → List Nat
  | [] => [n]
  | m :: rest => if n ≤ m then n :: m :: rest else m :: insertSorted n rest

/-- Python's `list.sort()` (ascending) as a structural insertion sort. -/
def pySort (l : List Nat) : List Nat := l.foldr insertSorted []

/-- The `supported_nips` list built in `Relay.__init__` (lines 103-111):
start from `[1, 2, 11]`, append 15 when NIP-15 (EOSE) is enabled, 9 when
the store supports deletes, 16 when the store supports NIP-16 event
treatment, then sort. -/
def buildNips (nip09 nip16 enableNip15 : Bool) : List Nat :=
  pySort ([1, 2, 11]
    ++ (if enableNip15 then [15] else [])
    ++ (if nip09 then [9] else [])
    ++ (if nip16 then [16] else []))

/-- The relay-information document as built by `Relay.__init__`
(lines 113-127), with field insertion order preserved. -/
structure RelayInfo where
  software : String
  version : String
  supported_nips : List Nat
  name : Option String
  description : Option String
  contact : Option String
  pubkey : Option String
deriving Repr, DecidableEq

/-- Configuration outcome of `Relay.__init__` that the claims touch. -/
structure RelayCfg where
  maxSub : Nat
  enableNip15 : Bool
  info : RelayInfo
deriving Repr, DecidableEq

/-- Embedding of the configuration part of `Relay.__init__`
(`relay.py` lines 51-127).  `nip09` / `nip16` are the store's capability
probes.  A raised Python `Exception` is returned as `.error msg`.

The source checks the pubkey twice: line 100 raises when a pubkey is given
and `Keys.is_key` fails; lines 124-126 then raise with the same message
when a pubkey is given and `Keys.is_key` succeeds, so the assignment of
`relay_information['pubkey']` on line 127 is unreachable. -/
def relayInit (nip09 nip16 : Bool) (maxSub : Nat)
    (name description pubkey contact : Option String)
    (enableNip15 : Bool) : Except String RelayCfg :=
  -- line 100-101: `if pubkey is not None and not Keys.is_key(pubkey): raise`
  match pubkey with
  | some k =>
    if !is_key k then
      .error ("given contact pubkey is not correct: " ++ k)
    else
      -- lines 124-126: `if pubkey is not None: if Keys.is_key(pubkey): raise`
      .error ("given contact pubkey is not correct: " ++ k)
  | none =>
    .ok {
      maxSub := maxSub
      enableNip15 := enableNip15
      info := {
        software := "https://github.com/monty888/nostrpy"
        version := "0.1"
        supported_nips := buildNips nip09 nip16 enableNip15
        name := name
        description := description
        contact := contact
        pubkey := none
      }
    }

/-- JSON serialization of the info document in Python dict insertion order
(`software`, `version`, `supported_nips`, then the optional fields in the
order the source inserts them). -/
def RelayInfo.toJ (i : RelayInfo) : J :=
  .obj ([("software", .str i.software),
         ("version", .str i.version),
         ("supported_nips", .arr (i.supported_nips.map (fun n => .num (Int.ofNat n))))]
    ++ (match i.name with | some v => [("name", J.str v)] | none => [])
    ++ (match i.description with | some v => [("description", J.str v)] | none => [])
    ++ (match i.contact with | some v => [("contact", J.str v)] | none => [])
    ++ (match i.pubkey with | some v => [("pubkey", J.str v)] | none => []))

/-- String escaping for `json.dumps`; the fields the relay serializes are
plain ASCII, so only the characters `json.dumps` always escapes matter. -/
def jEscape (s : String) : String :=
  String.mk (s.toList.flatMap (fun c =>
    if c == '"' then ['\\', '"']
    else if c == '\\' then ['\\', '\\']
    else [c]))

mutual

/-- Modelled from Python's `json.dumps` with default separators. -/
def jDump : J → String
  | .null => "null"
  | .bool true => "true"
  | .bool false => "false"
  | .num n => toString n
  | .str s => "\"" ++ jEscape s ++ "\""
  | .arr xs => "[" ++ jDumpList xs ++ "]"
  | .obj fs => "\x7b" ++ jDumpObj fs ++ "\x7d"

/-- Comma-separated serialization of array elements. -/
def jDumpList : List J → String
  | [] => ""
  | [x] => jDump x
  | x :: y :: rest => jDump x ++ ", " ++ jDumpList (y :: rest)

/-- Comma-separated serialization of object fields. -/
def jDumpObj : List (String × J) → String
  | [] => ""
  | [(k, v)] => "\"" ++ jEscape k ++ "\": " ++ jDump v
  | (k, v) :: f :: rest =>
      "\"" ++ jEscape k ++ "\": " ++ jDump v ++ ", " ++ jDumpObj (f :: rest)

end

/-- Response data of the aiohttp handler for a non-upgrade GET. -/
structure HttpResponse where
  status : Nat
  contentType : String
  body : String
deriving Repr, DecidableEq

/-- Modelled from aiohttp: `web.Response(text=...)` defaults to status 200
and content type `text/plain` when no `content_type` argument is given. -/
def webResponseText (t : String) : HttpResponse :=
  { status := 200, contentType := "text/plain", body := t }

/-- Embedding of `Relay._NIP11_relay_info_route` (lines 403-408):
`web.Response(text=json.dumps(self._relay_information))`.
`_websocket_handler` (lines 203-206) returns this whenever the GET is not
a valid WebSocket upgrade. -/
def NIP11_relay_info_route (info : RelayInfo) : HttpResponse :=
  webResponseText (jDump info.toJ)

/-- Event attributes as parsed by `Event.from_JSON` (spec §3). -/
structure EventData where
  id : String
  pubkey : String
  kind : Nat
  created_at : Nat
  tags : List (List String)
  content : String
  sig : String
deriving Repr, DecidableEq

/-- Modelled from the spec: `Event.event_data()` (monstr library, not
under `src/`) returns the event's JSON form; it is the payload the relay
sends in live `EVENT` frames. -/
def EventData.event_data (e : EventData) : J :=
  .obj [("id", .str e.id),
        ("pubkey", .str e.pubkey),
        ("created_at", .num (Int.ofNat e.created_at)),
        ("kind", .num (Int.ofNat e.kind)),
        ("tags", .arr (e.tags.map (fun t => .arr (t.map J.str)))),
        ("content", .str e.content),
        ("sig", .str e.sig)]

/-- Field lookup in a JSON object (Python dict access). -/
def jLookup (fs : List (String × J)) (k : String) : Option J :=
  match fs with
  | [] => none
  | (k2, v) :: rest => if k2 == k then some v else jLookup rest k

/-- String elements of a JSON array (a filter's value set). -/
def jStrList : J → List String
  | .arr xs => xs.filterMap (fun x => match x with | .str s => some s | _ => none)
  | _ => []

/-- Integer elements of a JSON array (a filter's `kinds` set). -/
def jNumList : J → List Int
  | .arr xs => xs.filterMap (fun x => match x with | .num n => some n | _ => none)
  | _ => []

/-- Values carried by the event's tags of the given single-letter name:
for a tag `[name, arg, ...]` the first argument participates in
filtering (spec §3). -/
def tagValues (e : EventData) (tname : String) : List String :=
  e.tags.filterMap (fun t =>
    match t with
    | n :: v :: _ => if n == tname then some v else none
    | _ => none)

/-- Modelled from the spec: a single filter clause matches an event as the
conjunction over its present fields; each present field is a disjunction
within its value set; `ids` and `authors` allow prefixes; `since`/`until`
bound `created_at`; a `#x` field constrains the values of `x` tags
(spec §3).  The real matcher is `Event.test` in the monstr library, not
under `src/`. -/
def clauseMatches (e : EventData) (fs : List (String × J)) : Bool :=
  (match jLookup fs "ids" with
   | none => true
   | some v => (jStrList v).any (fun p => p.isPrefixOf e.id)) &&
  (match jLookup fs "authors" with
   | none => true
   | some v => (jStrList v).any (fun p => p.isPrefixOf e.pubkey)) &&
  (match jLookup fs "kinds" with
   | none => true
   | some v => (jNumList v).contains (Int.ofNat e.kind)) &&
  (match jLookup fs "since" with
   | none => true
   | some v => match v with | .num n => decide (n ≤ (e.created_at : Int)) | _ => false) &&
  (match jLookup fs "until" with
   | none => true
   | some v => match v with | .num n => decide ((e.created_at : Int) ≤ n) | _ => false) &&
  fs.all (fun kv =>
    if kv.1.startsWith "#" then
      (jStrList kv.2).any (fun x => (tagValues e (kv.1.drop 1)).contains x)
    else true)

/-- Modelled from the spec: `matches(e, FS) = ∃ f ∈ FS, matches(e, f)`
(spec §3); a single clause stands for the one-element FilterSet, which is
how the relay stores a `REQ` without filters (`filter = {}`). -/
def testFS (e : EventData) (filter : J) : Bool :=
  match filter with
  | .obj fs => clauseMatches e fs
  | .arr xs => xs.any (fun c => match c with
      | .obj fs => clauseMatches e fs
      | _ => false)
  | _ => false

/-- One subscription as stored by `_do_sub` (line 343-346): the dict
`{'id': sub_id, 'filter': filter}`. -/
structure SubEntry where
  id : J
  filter : J
deriving Repr

/-- Per-connection state: the `subs` dict of the `self._ws[ws.id]` entry
created in `_websocket_handler` (lines 214-217), keyed by `sub_id` in
insertion order. -/
structure WSConn where
  subs : List (J × SubEntry)
deriving Repr

/-- The relay's mutable state visible to the handlers: the connection
table `self._ws`, the id counter, and the configuration the handlers
read. -/
structure RelayState where
  ws : List (Nat × WSConn)
  wsId : Nat
  maxSub : Nat
  enableNip15 : Bool
deriving Repr

/-- Lookup of a subscription entry by `sub_id` (Python `dict` access with
`==` on keys). -/
def subsGet (subs : List (J × SubEntry)) (k : J) : Option SubEntry :=
  match subs with
  | [] => none
  | (k2, v) :: rest => if J.beq k2 k then some v else subsGet rest k

/-- Python `sub_id in subs`. -/
def subsHas (subs : List (J × SubEntry)) (k : J) : Bool :=
  (subsGet subs k).isSome

/-- Insertion of a fresh key into the `subs` dict (only reached after the
`sub_id in subs` check failed, so an append preserves the dict model). -/
def subsInsert (subs : List (J × SubEntry)) (k : J) (v : SubEntry) :
    List (J × SubEntry) :=
  subs ++ [(k, v)]

/-- Python `del subs[sub_id]`. -/
def subsDel (subs : List (J × SubEntry)) (k : J) : List (J × SubEntry) :=
  subs.filter (fun p => !(J.beq p.1 k))

/-- Lookup in the connection table `self._ws`. -/
def wsGet (ws : List (Nat × WSConn)) (sid : Nat) : Option WSConn :=
  match ws with
  | [] => none
  | (s, c) :: rest => if s = sid then some c else wsGet rest sid

/-- Replacement of one connection's entry in the table. -/
def wsSet : List (Nat × WSConn) → Nat → WSConn → List (Nat × WSConn)
  | [], _, _ => []
  | (s, cc) :: rest, sid, conn =>
    if s = sid then (sid, conn) :: wsSet rest sid conn
    else (s, cc) :: wsSet rest sid conn

/-- Python exceptions the handlers raise or see.  `nostrCmd` is
`NostrCommandException` (caught by `_do_request` and turned into a
`NOTICE`); `jsonDecode` is `JSONDecodeError`; `integrityError` is
sqlite's `IntegrityError`; anything else escapes the dispatcher. -/
inductive PyErr where
  | nostrCmd (msg : String)
  | jsonDecode
  | integrityError (msg : String)
  | otherError (msg : String)
deriving Repr

/-- Outbound frames on a websocket (spec §6). -/
inductive Frame where
  | event (subId : J) (payload : J)
  | eose (subId : J)
  | notice (msg : String)
deriving Repr

/-- Python `str()` of a decoded value, as `'%s' % v` uses it in error
messages.  Container renderings are approximate; no claim inspects a
message built from a container sub_id. -/
def pyStr : J → String
  | .null => "None"
  | .bool true => "True"
  | .bool false => "False"
  | .num n => toString n
  | .str s => s
  | .arr _ => "[...]"
  | .obj _ => "\x7b...\x7d"

/-- External collaborators of the dispatcher, passed as parameters of the
embedding:

* `parse` is `json.loads` (Python stdlib), `none` when it raises
  `JSONDecodeError`;
* `fromJSON` is `Event.from_JSON` and `isValid` is `Event.is_valid`
  (monstr event primitives: parsing and signature verification, external
  per spec §4.2);
* `addEvent` is the outcome of `store.add_event` on this post (`none` =
  persisted, `some e` = the exception it raised);
* `getFilter` is `store.get_filter`;
* `sendOk` tells whether the k-th `ws.send_str` on the requesting socket
  during one handler succeeds (`_do_send` swallows the failure);
* `accept` is the accept chain: a handler returning `some r` raises
  `NostrCommandException(r)` from `accept_post`; the default chain
  accepts everything. -/
structure Env where
  parse : String → Option J
  fromJSON : J → Except PyErr EventData
  isValid : EventData → Bool
  addEvent : EventData → Option PyErr
  getFilter : J → Except PyErr (List J)
  sendOk : Nat → Bool
  accept : List (EventData → Option String)

/-- Result of one inbound frame: the state after the handler, the frames
written to the requesting socket in order, the live deliveries scheduled
by `_check_subs` as `(socket_id, sub_id, payload)` triples, and the
exception escaping `_do_request`, if any. -/
structure HandlerResult where
  state : RelayState
  frames : List Frame
  fanout : List (Nat × J × J)
  err : Option PyErr

/-- First rejection of the accept chain (`accept_post` calls in
`_do_event`, lines 272-273): the chain short-circuits on the first
handler that raises. -/
def firstReject : List (EventData → Option String) → EventData → Option String
  | [], _ => none
  | h :: rest, e =>
    match h e with
    | some r => some r
    | none => firstReject rest e

/-- Embedding of `Relay._check_subs` (lines 296-319): iterate the
connection table, iterate each connection's `subs` dict, and for every
subscription whose filter the event passes, schedule a send of
`['EVENT', sub_id, evt.event_data()]` to that connection's socket. -/
def check_subs (st : RelayState) (evt : EventData) : List (Nat × J × J) :=
  st.ws.flatMap (fun sc =>
    sc.2.subs.filterMap (fun sb =>
      if testFS evt sb.2.filter then some (sc.1, sb.1, evt.event_data) else none))

/-- Embedding of `Relay._do_event` (lines 262-294).  The accept chain runs
before the store; the `try` block covers `add_event`, `do_delete` and
`_check_subs`; the `except` block re-raises a duplicate-id
`IntegrityError` as `NostrCommandException.event_already_exists` and
swallows (logs) every other exception.  `do_delete` (kind 5) is a store
side effect with no observable output here.  The duplicate message is
modelled from the spec: `NostrCommandException.event_already_exists`
lives in `monstr.exception`, not under `src/`; the spec (§4.6) gives the
text `event already exists: <id>`. -/
def do_event (env : Env) (st : RelayState) (reqJson : List J) : HandlerResult :=
  if reqJson.length ≤ 1 then
    ⟨st, [], [], some (.nostrCmd "EVENT command missing event data")⟩
  else
    match env.fromJSON (reqJson.getD 1 .null) with
    | .error e => ⟨st, [], [], some e⟩
    | .ok evt =>
      if !env.isValid evt then
        ⟨st, [], [], some (.nostrCmd "invalid event, pubkey doesn't match sig")⟩
      else
        match firstReject env.accept evt with
        | some reason => ⟨st, [], [], some (.nostrCmd reason)⟩
        | none =>
          match env.addEvent evt with
          | none => ⟨st, [], check_subs st evt, none⟩
          | some e =>
            match e with
            | .integrityError msg =>
              if strIn "event_id" (strLower msg) && strIn "unique" (strLower msg) then
                ⟨st, [], [], some (.nostrCmd ("event already exists: " ++ evt.id))⟩
              else
                ⟨st, [], [], none⟩
            | _ => ⟨st, [], [], none⟩

/-- Frames produced by the backfill loop of `_do_sub` (lines 354-356),
indexed by send number on this socket: a failing `ws.send_str` is
swallowed inside `_do_send`, dropping that frame only. -/
def backfillSends (sendOk : Nat → Bool) (subId : J) : List J → Nat → List Frame
  | [], _ => []
  | e :: rest, i =>
    (if sendOk i then [Frame.event subId e] else []) ++ backfillSends sendOk subId rest (i + 1)

/-- Embedding of `Relay._do_sub` (lines 321-360): reject a missing
`sub_id`, a duplicate `sub_id`, and a `REQ` at the `max_sub` cap; insert
the subscription (with `filter = {}` when no filters were supplied, the
filter list otherwise); then query the store and send the backfill frames
followed by `EOSE` when NIP-15 is enabled.  A `get_filter` exception
escapes after the insertion. -/
def do_sub (env : Env) (st : RelayState) (socketId : Nat) (reqJson : List J) :
    HandlerResult :=
  if reqJson.length ≤ 1 then
    ⟨st, [], [], some (.nostrCmd "REQ command missing sub_id")⟩
  else
    let subId := reqJson.getD 1 .null
    let filter : J := if reqJson.length > 2 then .arr (reqJson.drop 2) else .obj []
    match wsGet st.ws socketId with
    | none => ⟨st, [], [], some (.otherError "KeyError")⟩
    | some conn =>
      if subsHas conn.subs subId then
        ⟨st, [], [], some (.nostrCmd
          ("REQ command for sub_id that already exists - " ++ pyStr subId))⟩
      else if conn.subs.length ≥ st.maxSub then
        ⟨st, [], [], some (.nostrCmd
          ("REQ new sub_id " ++ pyStr subId ++ " not allowed, already at max subs="
            ++ toString st.maxSub))⟩
      else
        let st' := { st with
          ws := wsSet st.ws socketId { conn with
            subs := subsInsert conn.subs subId ⟨subId, filter⟩ } }
        match env.getFilter filter with
        | .error e => ⟨st', [], [], some e⟩
        | .ok evts =>
          let bf := backfillSends env.sendOk subId evts 0
          let eoseFrames :=
            if st.enableNip15 then
              (if env.sendOk evts.length then [Frame.eose subId] else [])
            else []
          ⟨st', bf ++ eoseFrames, [], none⟩

/-- Embedding of `Relay._do_unsub` (lines 362-377): reject a missing or
unknown `sub_id`, delete the subscription, and signal success through a
`NostrCommandException` that `_do_request` turns into a `NOTICE`. -/
def do_unsub (st : RelayState) (socketId : Nat) (reqJson : List J) : HandlerResult :=
  if reqJson.length ≤ 1 then
    ⟨st, [], [], some (.nostrCmd "REQ command missing sub_id")⟩
  else
    let subId := reqJson.getD 1 .null
    match wsGet st.ws socketId with
    | none => ⟨st, [], [], some (.otherError "KeyError")⟩
    | some conn =>
      if !subsHas conn.subs subId then
        ⟨st, [], [], some (.nostrCmd
          ("CLOSE command for sub_id that not subscribed to, nothing to do - "
            ++ pyStr subId))⟩
      else
        let st' := { st with
          ws := wsSet st.ws socketId { conn with subs := subsDel conn.subs subId } }
        ⟨st', [], [], some (.nostrCmd
          ("CLOSE command for sub_id " ++ pyStr subId ++ " - success"))⟩

/-- Python subscript `as_json[0]`: head of a list, first character of a
string, `TypeError` on other values (only lists reach the dispatch, since
no one-character string is a valid verb). -/
def pySub0 : J → Except PyErr J
  | .arr (h :: _) => .ok h
  | .arr [] => .error (.otherError "IndexError")
  | .str s =>
    match s.toList with
    | [] => .error (.otherError "IndexError")
    | c :: _ => .ok (.str (String.mk [c]))
  | _ => .error (.otherError "TypeError")

/-- Elements of a decoded JSON array (the handlers index into it). -/
def J.asList : J → List J
  | .arr xs => xs
  | _ => []

/-- Embedding of `Relay._do_request` (lines 233-260): ignore empty
messages; decode; reject falsy decodes and unknown verbs; dispatch to the
three handlers; turn `JSONDecodeError` and `NostrCommandException` into a
single `NOTICE` on the same socket; let every other exception escape.
The `NOTICE` write itself is modelled as succeeding (its failure would
escape the dispatcher in the source; no claim exercises that). -/
def do_request (env : Env) (st : RelayState) (socketId : Nat) (reqStr : String) :
    HandlerResult :=
  if reqStr.isEmpty then ⟨st, [], [], none⟩
  else
    let inner : HandlerResult :=
      match env.parse reqStr with
      | none => ⟨st, [], [], some .jsonDecode⟩
      | some asJson =>
        if asJson.falsy then ⟨st, [], [], some (.nostrCmd "No command received")⟩
        else
          match pySub0 asJson with
          | .error e => ⟨st, [], [], some e⟩
          | .ok cmd =>
            if !cmd.isStrIn ["EVENT", "REQ", "CLOSE"] then
              ⟨st, [], [], some (.nostrCmd ("unsupported command " ++ pyStr cmd))⟩
            else if cmd.isStrIn ["EVENT"] then do_event env st asJson.asList
            else if cmd.isStrIn ["REQ"] then do_sub env st socketId asJson.asList
            else do_unsub st socketId asJson.asList
    match inner.err with
    | some .jsonDecode =>
      ⟨inner.state, inner.frames ++ [.notice "unable to decode command string"],
        inner.fanout, none⟩
    | some (.nostrCmd m) =>
      ⟨inner.state, inner.frames ++ [.notice m], inner.fanout, none⟩
    | _ => inner

/-!
A small cooperative scheduler embedding the asyncio semantics that the
send paths of `_do_sub`, `_send_event` and `_check_subs` rely on.

* a `Proc` is a coroutine reduced to its observable actions on one
  socket: writing a frame (`emit`, one `ws.send_str` whose `drain` does
  not suspend — aiohttp writes the frame bytes to the transport
  synchronously), `asyncio.create_task` (`spawn`, the new task joins the
  back of the ready queue) and the `task = create_task(...); await task`
  idiom of `_do_sub` (`spawnAwait`: the current task suspends, and the
  awaited task, on completion, re-enqueues the continuation — asyncio
  wakes the awaiter via `call_soon`, i.e. at the back of the queue).
* the ready queue is FIFO, as asyncio's is; `runSched` runs one task per
  step until its next suspension, collecting the frames written.
-/

/-- Coroutine skeletons: the observable actions of the relay's send
paths under asyncio. -/
inductive Proc where
  | done : Proc
  | emit : Frame → Proc → Proc
  | spawn : Proc → Proc → Proc
  | spawnAwait : Proc → Proc → Proc

/-- Sequencing: run `p` to completion, then continue with `q` (used to
attach an awaiter's continuation to the awaited task's completion). -/
def Proc.seq : Proc → Proc → Proc
  | .done, q => q
  | .emit f k, q => .emit f (k.seq q)
  | .spawn p k, q => .spawn p (k.seq q)
  | .spawnAwait p k, q => .spawnAwait p (k.seq q)

/-- One task step: run until completion or the next suspension, returning
the frames written and the tasks to enqueue (spawned tasks in spawn
order; for `spawnAwait` the spawned task carries the continuation, which
it re-enqueues when it completes, matching asyncio's wake-up order). -/
def stepRun : Proc → List Frame × List Proc
  | .done => ([], [])
  | .emit f k =>
    let r := stepRun k
    (f :: r.1, r.2)
  | .spawn p k =>
    let r := stepRun k
    (r.1, p :: r.2)
  | .spawnAwait p k => ([], [p.seq (.spawn k .done)])

/-- FIFO event loop: run the front task for one step, enqueue what it
spawned at the back, repeat.  `fuel` bounds the number of steps. -/
def runSched : Nat → List Proc → List Frame
  | 0, _ => []
  | _ + 1, [] => []
  | n + 1, t :: ts =>
    let r := stepRun t
    r.1 ++ runSched n (ts ++ r.2)

/-- The coroutine `_do_send` (lines 379-383): one `ws.send_str`. -/
def doSendP (f : Frame) : Proc :=
  .emit f .done

/-- The coroutine `_send_event` (lines 385-391): it only
`asyncio.create_task`s `_do_send` and returns — the send itself is
detached. -/
def sendEventP (subId : J) (payload : J) : Proc :=
  .spawn (doSendP (.event subId payload)) .done

/-- The backfill-and-EOSE tail of `_do_sub` (lines 350-360): for each
stored event, `task = create_task(_send_event(...)); await task`; then,
when NIP-15 is enabled, `await _send_eose(...)`, which awaits `_do_send`
inline. -/
def backfillP (subId : J) (evts : List J) (nip15 : Bool) : Proc :=
  match evts with
  | [] => if nip15 then doSendP (.eose subId) else .done
  | e :: rest => .spawnAwait (sendEventP subId e) (backfillP subId rest nip15)

/-- The task of another connection's reader handling an `EVENT` post
concurrently: `_do_event` suspends nowhere before `_check_subs`, which
`create_task`s one `_send_event` per scheduled delivery (line 317) and
returns.  `sends` are the deliveries `_check_subs` scheduled to the
observed socket. -/
def checkSubsP (sends : List (J × J)) : Proc :=
  sends.foldr (fun sd k => .spawn (sendEventP sd.1 sd.2) k) .done

/-- Execution of one scheduled `_do_send` (lines 379-383): the frame is
written when the send succeeds; on failure the `except` branch only
logs, so nothing is written and nothing else happens. -/
def do_send_exec (ok : Bool) (f : Frame) : List Frame :=
  if ok then [f] else []

/-- Execution of the deliveries scheduled by `_check_subs`, with
`sendOkSock` giving each socket's write outcome.  Each delivery runs in
its own task and `_do_send` swallows its own failure, so one socket's
failure drops only that socket's frame. -/
def run_fanout (sendOkSock : Nat → Bool) (sends : List (Nat × J × J)) :
    List (Nat × Frame) :=
  sends.flatMap (fun s =>
    (do_send_exec (sendOkSock s.1) (.event s.2.1 s.2.2)).map (fun f => (s.1, f)))

/-- Fan-out of one stored event followed by the execution of its sends:
the relay state is returned unchanged because neither `_check_subs` nor
`_do_send` writes `self._ws`, removes a connection, or closes a socket
on any path, including the send-failure path. -/
def check_subs_run (sendOkSock : Nat → Bool) (st : RelayState) (evt : EventData) :
    RelayState × List (Nat × Frame) :=
  (st, run_fanout sendOkSock (check_subs st evt))

/-! Helper lemmas about the connection-table operations. -/

theorem wsGet_wsSet_self (ws : List (Nat × WSConn)) (sid : Nat) (c : WSConn)
    (h : (wsGet ws sid).isSome) : wsGet (wsSet ws sid c) sid = some c := by
  induction ws with
  | nil => simp [wsGet] at h
  | cons hd tl ih =>
    obtain ⟨s, cc⟩ := hd
    by_cases hk : s = sid
    · subst hk
      simp [wsSet, wsGet]
    · simp only [wsGet, if_neg hk] at h
      simpa [wsSet, wsGet, hk] using ih h

theorem wsGet_wsSet_other (ws : List (Nat × WSConn)) (sid sid' : Nat) (c : WSConn)
    (h : sid' ≠ sid) : wsGet (wsSet ws sid c) sid' = wsGet ws sid' := by
  induction ws with
  | nil => simp [wsSet, wsGet]
  | cons hd tl ih =>
    obtain ⟨s, cc⟩ := hd
    by_cases hk : s = sid
    · subst hk
      have hns : ¬ s = sid' := fun hc => h hc.symm
      simp [wsSet, wsGet, hns, ih]
    · by_cases hk2 : s = sid'
      · simp [wsSet, wsGet, hk, hk2, h, ih]
      · simp [wsSet, wsGet, hk, hk2, ih]

/-- A string of 64 zeros: a valid hex key of the correct length. -/
def validKey64 : String := String.mk (List.replicate 64 '0')

/-- C1: the claim says startup fails exactly when the supplied pubkey fails
`is_key`, and that a valid pubkey yields a relay-information document
carrying it.  In the source, line 100 rejects invalid pubkeys, but lines
124-126 then raise the same "given contact pubkey is not correct" error
precisely when `is_key` holds, so `Relay.__init__` fails for every
supplied pubkey and the `relay_information['pubkey']` assignment on line
127 is dead code.  This theorem evaluates the embedded constructor on a
valid key (and, for contrast, an invalid one): both fail. -/
theorem relayInit_rejects_valid_pubkey :
    is_key validKey64 = true ∧
    relayInit false false 3 none none (some validKey64) none true
      = .error ("given contact pubkey is not correct: " ++ validKey64) ∧
    is_key "zz" = false ∧
    relayInit false false 3 none none (some "zz") none true
      = .error ("given contact pubkey is not correct: " ++ "zz") := by
  exact ⟨by decide, rfl, by decide, rfl⟩

/-- C7 (amended): a GET on the relay endpoint without a valid WebSocket
upgrade is answered with status 200 and the JSON-serialized
relay-information document, whose `supported_nips` is a sorted list that
includes 1, 2 and 11, includes 9 iff the store supports NIP-09, 15 iff
EOSE is enabled, and 16 iff the store supports NIP-16; but the
Content-Type is aiohttp's default `text/plain`, not `application/json`,
because `_NIP11_relay_info_route` builds `web.Response(text=...)` with no
content type. -/
theorem nip11_route_serves_info_document (nip09 nip16 nip15 : Bool) (ms : Nat)
    (name dsc ct : Option String) (cfg : RelayCfg)
    (h : relayInit nip09 nip16 ms name dsc none ct nip15 = .ok cfg) :
    (NIP11_relay_info_route cfg.info).status = 200 ∧
    (NIP11_relay_info_route cfg.info).contentType = "text/plain" ∧
    (NIP11_relay_info_route cfg.info).body = jDump cfg.info.toJ ∧
    cfg.info.supported_nips = buildNips nip09 nip16 nip15 ∧
    List.Sorted (· ≤ ·) (buildNips nip09 nip16 nip15) ∧
    1 ∈ buildNips nip09 nip16 nip15 ∧ 2 ∈ buildNips nip09 nip16 nip15 ∧
    11 ∈ buildNips nip09 nip16 nip15 ∧
    (9 ∈ buildNips nip09 nip16 nip15 ↔ nip09 = true) ∧
    (15 ∈ buildNips nip09 nip16 nip15 ↔ nip15 = true) ∧
    (16 ∈ buildNips nip09 nip16 nip15 ↔ nip16 = true) := by
  simp only [relayInit, Except.ok.injEq] at h
  subst h
  refine ⟨rfl, rfl, rfl, rfl, ?_, ?_, ?_, ?_, ?_, ?_, ?_⟩ <;>
    cases nip09 <;> cases nip16 <;> cases nip15 <;> decide

/-- The configuration a NIP-09-capable, EOSE-enabled relay starts with. -/
def cfg711 : RelayCfg :=
  { maxSub := 3, enableNip15 := true,
    info := { software := "https://github.com/monty888/nostrpy", version := "0.1",
              supported_nips := buildNips true false true,
              name := none, description := none, contact := none, pubkey := none } }

/-- C7 witness: the info-document theorem applied to a concrete
configuration. -/
theorem nip11_route_witness :
    (NIP11_relay_info_route cfg711.info).status = 200 ∧
    (NIP11_relay_info_route cfg711.info).contentType = "text/plain" ∧
    (NIP11_relay_info_route cfg711.info).body = jDump cfg711.info.toJ ∧
    cfg711.info.supported_nips = buildNips true false true ∧
    List.Sorted (· ≤ ·) (buildNips true false true) ∧
    1 ∈ buildNips true false true ∧ 2 ∈ buildNips true false true ∧
    11 ∈ buildNips true false true ∧
    (9 ∈ buildNips true false true ↔ true = true) ∧
    (15 ∈ buildNips true false true ↔ true = true) ∧
    (16 ∈ buildNips true false true ↔ false = true) :=
  nip11_route_serves_info_document true false true 3 none none none cfg711 rfl

/-- C7 counterexample: the information response declares `text/plain`
(aiohttp's default for `web.Response(text=...)`), not the
`application/json` the claim requires. -/
theorem nip11_route_content_type_not_json :
    (NIP11_relay_info_route cfg711.info).contentType = "text/plain" ∧
    (NIP11_relay_info_route cfg711.info).contentType ≠ "application/json" := by
  exact ⟨rfl, by decide⟩

/-- One scheduler step of the backfill task: the front of the queue is the
suspended `_do_sub`; three loop steps deliver the head event's frame and
leave the backfill task for the tail as the sole task. -/
theorem runSched_backfill_step (s e : J) (r : List J) (n : Nat) :
    runSched (n + 3) [backfillP s (e :: r) true]
      = Frame.event s e :: runSched n [backfillP s r true] := rfl

/-- C2 (amended): when the backfill loop of `_do_sub` runs without
concurrent tasks, the frames on the wire are exactly the store's events
in store order followed by the `EOSE` frame (NIP-15 enabled); each
backfill send task is scheduled and writes its frame before the next is
issued.  The original claim's further guarantee — that the first live
fan-out `EVENT` follows `EOSE` — fails: see the counterexample, where a
concurrently posted event is delivered mid-backfill, because `_do_sub`
registers the subscription before the backfill and `_check_subs` has no
backfill guard. -/
theorem backfill_in_store_order_then_eose (s : J) (evts : List J) :
    runSched (3 * evts.length + 1) [backfillP s evts true]
      = evts.map (Frame.event s) ++ [Frame.eose s] := by
  induction evts with
  | nil => rfl
  | cons e r ih =>
    have harith : 3 * (e :: r).length + 1 = (3 * r.length + 1) + 3 := by
      simp [List.length_cons]
      ring
    rw [harith, runSched_backfill_step, ih]
    simp

/-- A connection (socket 0) holding the single match-all subscription
`"x"`, as `_do_sub` registers it for a `REQ` without filters. -/
def connMatchAll : WSConn := ⟨[(J.str "x", ⟨J.str "x", J.obj []⟩)]⟩

/-- Relay state right after that registration, before the backfill loop. -/
def stMatchAll : RelayState := ⟨[(0, connMatchAll)], 1, 3, true⟩

/-- A live event posted by another client while the backfill runs. -/
def evtHi : EventData := ⟨"ff00", "ab01", 1, 1000, [], "hi", "sig"⟩

/-- C2 counterexample: with subscription `"x"` registered (which `_do_sub`
does before the backfill), another connection's `EVENT` handler runs
while the backfill of two stored events is in progress — a perfectly
ordinary asyncio configuration, since `_do_sub` suspends at every
`await task`.  The fan-out schedules the live delivery (first conjunct),
and the FIFO run delivers the live event *between* the two backfill
events, before the `EOSE` frame (second conjunct), refuting the claim
that the first live `EVENT` frame follows `EOSE`. -/
theorem live_event_delivered_before_eose :
    check_subs stMatchAll evtHi = [(0, J.str "x", evtHi.event_data)] ∧
    runSched 12 [backfillP (J.str "x") [J.str "e1", J.str "e2"] true,
                 checkSubsP [(J.str "x", evtHi.event_data)]]
      = [Frame.event (J.str "x") (J.str "e1"),
         Frame.event (J.str "x") evtHi.event_data,
         Frame.event (J.str "x") (J.str "e2"),
         Frame.eose (J.str "x")] := ⟨rfl, rfl⟩

/-- An empty relay state: no connections yet. -/
def st0 : RelayState := ⟨[], 0, 3, true⟩

/-- C3 (amended): a non-empty frame that fails JSON decoding produces
exactly one `NOTICE` on the same socket, and a decoded JSON array whose
first element is not `EVENT`/`REQ`/`CLOSE` produces exactly one `NOTICE`;
in both cases the connection state (the registry and the connection
table) is unchanged and no exception escapes.  An *empty* message,
however, is silently ignored (`_do_request` returns at line 236 before
any reply), against the claim's "exactly one NOTICE". -/
theorem bad_inbound_frames_one_notice (env : Env) (st : RelayState) (sid : Nat)
    (s : String) :
    (s.isEmpty = true → do_request env st sid s = ⟨st, [], [], none⟩) ∧
    (s.isEmpty = false → env.parse s = none →
      do_request env st sid s
        = ⟨st, [.notice "unable to decode command string"], [], none⟩) ∧
    (∀ v rest, s.isEmpty = false → env.parse s = some (.arr (v :: rest)) →
      v.isStrIn ["EVENT", "REQ", "CLOSE"] = false →
      do_request env st sid s
        = ⟨st, [.notice ("unsupported command " ++ pyStr v)], [], none⟩) := by
  refine ⟨?_, ?_, ?_⟩
  · intro hs
    simp [do_request, hs]
  · intro hne hp
    simp [do_request, hne, hp]
  · intro v rest hne hp hv
    simp [do_request, hne, hp, J.falsy, pySub0, hv]

/-- An environment whose decoder fails on `nojson` and decodes `PING!` to
the unknown-verb array `["PING"]`. -/
def envC3 : Env :=
  { parse := fun s =>
      if s = "nojson" then none
      else if s = "PING!" then some (.arr [.str "PING"]) else none,
    fromJSON := fun _ => .error (.otherError "unused"),
    isValid := fun _ => false,
    addEvent := fun _ => none,
    getFilter := fun _ => .ok [],
    sendOk := fun _ => true,
    accept := [] }

/-- C3 witness: the three cases of the amended claim at concrete inputs. -/
theorem bad_inbound_frames_witness :
    do_request envC3 st0 0 "" = ⟨st0, [], [], none⟩ ∧
    do_request envC3 st0 0 "nojson"
      = ⟨st0, [.notice "unable to decode command string"], [], none⟩ ∧
    do_request envC3 st0 0 "PING!"
      = ⟨st0, [.notice ("unsupported command " ++ pyStr (.str "PING"))], [], none⟩ :=
  ⟨(bad_inbound_frames_one_notice envC3 st0 0 "").1 rfl,
   (bad_inbound_frames_one_notice envC3 st0 0 "nojson").2.1 (by decide) rfl,
   (bad_inbound_frames_one_notice envC3 st0 0 "PING!").2.2 (J.str "PING") []
     (by decide) rfl rfl⟩

/-- C3 counterexample: the empty inbound message draws no reply at all —
zero `NOTICE` frames, not the claimed "exactly one" (`_do_request`
returns immediately on a falsy `req_str`). -/
theorem empty_message_no_reply :
    (do_request envC3 st0 0 "").frames = [] ∧
    (do_request envC3 st0 0 "").err = none ∧
    (do_request envC3 st0 0 "").state.ws = st0.ws := ⟨rfl, rfl, rfl⟩

/-- The event whose post the store-failure scenarios exercise. -/
def evtC4 : EventData := ⟨"abc123", "k1", 1, 5, [], "c", "s"⟩

/-- C4 (amended): for an `EVENT` post that reaches the store (valid event,
accept chain passes), a `Duplicate` failure — an `IntegrityError` whose
message names the `event_id` unique constraint — yields exactly the
`NOTICE` `event already exists: <id>`; any *other* store error is logged
and swallowed (`_do_event` line 294): no `NOTICE` at all is sent, no
exception escapes, and the connection state is unchanged (the connection
remains open).  The claim's generic `NOTICE` for `StorageFault` does not
exist in the code. -/
theorem store_error_handling (env : Env) (st : RelayState) (sid : Nat) (s : String)
    (ej : J) (evt : EventData)
    (hne : s.isEmpty = false)
    (hp : env.parse s = some (.arr [.str "EVENT", ej]))
    (hparse : env.fromJSON ej = .ok evt)
    (hvalid : env.isValid evt = true)
    (hacc : firstReject env.accept evt = none) :
    (∀ m, env.addEvent evt = some (.integrityError m) →
      strIn "event_id" (strLower m) = true → strIn "unique" (strLower m) = true →
      do_request env st sid s
        = ⟨st, [.notice ("event already exists: " ++ evt.id)], [], none⟩) ∧
    (∀ m, env.addEvent evt = some (.otherError m) →
      do_request env st sid s = ⟨st, [], [], none⟩) := by
  constructor
  · intro m hadd h1 h2
    simp [do_request, do_event, hne, hp, hparse, hvalid, hacc, hadd, h1, h2,
      J.falsy, pySub0, J.isStrIn, J.asList]
  · intro m hadd
    simp [do_request, do_event, hne, hp, hparse, hvalid, hacc, hadd,
      J.falsy, pySub0, J.isStrIn, J.asList]

/-- An environment whose store raises sqlite's duplicate-id
`IntegrityError` for every post. -/
def envC4dup : Env :=
  { parse := fun _ => some (.arr [.str "EVENT", .obj []]),
    fromJSON := fun _ => .ok evtC4,
    isValid := fun _ => true,
    addEvent := fun _ => some (.integrityError "UNIQUE constraint failed: events.event_id"),
    getFilter := fun _ => .ok [],
    sendOk := fun _ => true,
    accept := [] }

/-- An environment whose store raises a generic failure for every post. -/
def envC4gen : Env :=
  { parse := fun _ => some (.arr [.str "EVENT", .obj []]),
    fromJSON := fun _ => .ok evtC4,
    isValid := fun _ => true,
    addEvent := fun _ => some (.otherError "disk I/O error"),
    getFilter := fun _ => .ok [],
    sendOk := fun _ => true,
    accept := [] }

/-- C4 witness: both store-failure branches at concrete inputs — the
duplicate post draws the `event already exists` notice; the generic
fault draws nothing. -/
theorem store_error_handling_witness :
    do_request envC4dup st0 0 "m"
      = ⟨st0, [.notice ("event already exists: " ++ evtC4.id)], [], none⟩ ∧
    do_request envC4gen st0 0 "m" = ⟨st0, [], [], none⟩ :=
  ⟨(store_error_handling envC4dup st0 0 "m" (.obj []) evtC4 rfl rfl rfl rfl rfl).1
      "UNIQUE constraint failed: events.event_id" rfl (by decide) (by decide),
   (store_error_handling envC4gen st0 0 "m" (.obj []) evtC4 rfl rfl rfl rfl rfl).2
      "disk I/O error" rfl⟩

/-- C4 counterexample: on a generic store failure (`StorageFault`) the
client receives no `NOTICE` whatsoever — the claim requires one with a
generic message. -/
theorem storage_fault_draws_no_notice :
    (do_request envC4gen st0 0 "m").frames = [] ∧
    (do_request envC4gen st0 0 "m").err = none := ⟨rfl, rfl⟩

/-- Characterization of `_do_sub`'s accepting branch: when the `sub_id` is
fresh and the cap is not reached, the subscription is inserted into the
connection's registry — whatever the store call then does. -/
theorem do_sub_insert_state (env : Env) (st : RelayState) (sid : Nat) (subIdJ : J)
    (rest : List J) (conn : WSConn)
    (hconn : wsGet st.ws sid = some conn)
    (hdup : subsHas conn.subs subIdJ = false)
    (hmax : conn.subs.length < st.maxSub) :
    ∃ fl, (do_sub env st sid (J.str "REQ" :: subIdJ :: rest)).state
      = { st with ws := wsSet st.ws sid ⟨conn.subs ++ [(subIdJ, ⟨subIdJ, fl⟩)]⟩ } := by
  have hnmax : ¬ conn.subs.length ≥ st.maxSub := by omega
  cases rest with
  | nil =>
    refine ⟨J.obj [], ?_⟩
    cases hgf : env.getFilter (J.obj []) <;>
      simp [do_sub, hconn, hdup, hnmax, hgf, subsInsert]
  | cons f fs =>
    refine ⟨J.arr (f :: fs), ?_⟩
    cases hgf : env.getFilter (J.arr (f :: fs)) <;>
      simp [do_sub, hconn, hdup, hnmax, hgf, subsInsert]

/-- C5: a connection's registry never exceeds `max_sub`: assuming every
connection respects the bound, it still does after any `REQ`; a `REQ` at
the cap is rejected with the `NOTICE` quoting the limit (via the
`NostrCommandException` that `_do_request` converts) and inserts
nothing; a `REQ` whose `sub_id` already exists is rejected with a
`NOTICE` and inserts nothing. -/
theorem req_max_sub_enforced (env : Env) (st : RelayState) (sid : Nat) (subIdJ : J)
    (rest : List J) (conn : WSConn)
    (hconn : wsGet st.ws sid = some conn)
    (hinv : ∀ sid' conn', wsGet st.ws sid' = some conn' →
      conn'.subs.length ≤ st.maxSub) :
    (∀ sid' conn',
      wsGet (do_sub env st sid (J.str "REQ" :: subIdJ :: rest)).state.ws sid'
        = some conn' → conn'.subs.length ≤ st.maxSub) ∧
    (subsHas conn.subs subIdJ = true →
      (do_sub env st sid (J.str "REQ" :: subIdJ :: rest)).state = st ∧
      (do_sub env st sid (J.str "REQ" :: subIdJ :: rest)).err
        = some (.nostrCmd
            ("REQ command for sub_id that already exists - " ++ pyStr subIdJ))) ∧
    (subsHas conn.subs subIdJ = false → st.maxSub ≤ conn.subs.length →
      (do_sub env st sid (J.str "REQ" :: subIdJ :: rest)).state = st ∧
      (do_sub env st sid (J.str "REQ" :: subIdJ :: rest)).err
        = some (.nostrCmd ("REQ new sub_id " ++ pyStr subIdJ
            ++ " not allowed, already at max subs=" ++ toString st.maxSub))) := by
  refine ⟨?_, ?_, ?_⟩
  · intro sid' conn' hget
    by_cases hdup : subsHas conn.subs subIdJ = true
    · have hres : (do_sub env st sid (J.str "REQ" :: subIdJ :: rest)).state = st := by
        simp [do_sub, hconn, hdup]
      rw [hres] at hget
      exact hinv sid' conn' hget
    · rw [Bool.not_eq_true] at hdup
      by_cases hmax : st.maxSub ≤ conn.subs.length
      · have hres : (do_sub env st sid (J.str "REQ" :: subIdJ :: rest)).state = st := by
          simp [do_sub, hconn, hdup, ge_iff_le, hmax]
        rw [hres] at hget
        exact hinv sid' conn' hget
      · have hlt : conn.subs.length < st.maxSub := by omega
        obtain ⟨fl, hst⟩ := do_sub_insert_state env st sid subIdJ rest conn hconn hdup hlt
        rw [hst] at hget
        by_cases hsid : sid' = sid
        · subst hsid
          rw [wsGet_wsSet_self st.ws sid' _ (by simp [hconn])] at hget
          cases hget
          simp only [List.length_append, List.length_singleton]
          omega
        · rw [wsGet_wsSet_other st.ws sid sid' _ hsid] at hget
          exact hinv sid' conn' hget
  · intro hdup
    have hres : do_sub env st sid (J.str "REQ" :: subIdJ :: rest)
        = ⟨st, [], [], some (.nostrCmd
            ("REQ command for sub_id that already exists - " ++ pyStr subIdJ))⟩ := by
      simp [do_sub, hconn, hdup]
    rw [hres]
    exact ⟨rfl, rfl⟩
  · intro hdup hmax
    have hres : do_sub env st sid (J.str "REQ" :: subIdJ :: rest)
        = ⟨st, [], [], some (.nostrCmd ("REQ new sub_id " ++ pyStr subIdJ
            ++ " not allowed, already at max subs=" ++ toString st.maxSub))⟩ := by
      simp [do_sub, hconn, hdup, ge_iff_le, hmax]
    rw [hres]
    exact ⟨rfl, rfl⟩

/-- A connection already holding its three allowed subscriptions. -/
def connFull : WSConn :=
  ⟨[(J.str "a", ⟨J.str "a", J.obj []⟩),
    (J.str "b", ⟨J.str "b", J.obj []⟩),
    (J.str "c", ⟨J.str "c", J.obj []⟩)]⟩

/-- A relay (max_sub = 3) with one full connection. -/
def stFull : RelayState := ⟨[(0, connFull)], 1, 3, true⟩

/-- The full connection's state satisfies the registry bound. -/
theorem stFull_inv (sid' : Nat) (conn' : WSConn)
    (h : wsGet stFull.ws sid' = some conn') :
    conn'.subs.length ≤ stFull.maxSub := by
  cases sid' with
  | zero =>
    simp [stFull, wsGet] at h
    cases h
    decide
  | succ n => simp [stFull, wsGet] at h

/-- C5 witness: on the full connection, a fourth `REQ` (`d`) is rejected
with the limit-quoting message and the registry stays within the bound;
a duplicate `REQ` (`a`) is rejected as well. -/
theorem req_max_sub_witness :
    (∀ sid' conn',
      wsGet (do_sub envC3 stFull 0 [J.str "REQ", J.str "d"]).state.ws sid'
        = some conn' → conn'.subs.length ≤ stFull.maxSub) ∧
    ((do_sub envC3 stFull 0 [J.str "REQ", J.str "d"]).state = stFull ∧
      (do_sub envC3 stFull 0 [J.str "REQ", J.str "d"]).err
        = some (.nostrCmd ("REQ new sub_id " ++ pyStr (J.str "d")
            ++ " not allowed, already at max subs=" ++ toString stFull.maxSub))) ∧
    ((do_sub envC3 stFull 0 [J.str "REQ", J.str "a"]).state = stFull ∧
      (do_sub envC3 stFull 0 [J.str "REQ", J.str "a"]).err
        = some (.nostrCmd
            ("REQ command for sub_id that already exists - " ++ pyStr (J.str "a")))) :=
  ⟨(req_max_sub_enforced envC3 stFull 0 (J.str "d") [] connFull rfl stFull_inv).1,
   (req_max_sub_enforced envC3 stFull 0 (J.str "d") [] connFull rfl stFull_inv).2.2
     rfl (by decide),
   (req_max_sub_enforced envC3 stFull 0 (J.str "a") [] connFull rfl stFull_inv).2.1
     rfl⟩

/-- C6: a `REQ` that supplies a `sub_id` and zero filters creates the
subscription with the filter `{}` — the single match-all clause, i.e. the
FilterSet `[{}]` under the matcher's dict-as-singleton convention — and
every event matches it, stored or live. -/
theorem req_zero_filters_match_all (env : Env) (st : RelayState) (sid : Nat)
    (subIdJ : J) (conn : WSConn)
    (hconn : wsGet st.ws sid = some conn)
    (hdup : subsHas conn.subs subIdJ = false)
    (hmax : conn.subs.length < st.maxSub) :
    (∃ conn2, wsGet (do_sub env st sid [J.str "REQ", subIdJ]).state.ws sid
        = some conn2 ∧
      conn2.subs = conn.subs ++ [(subIdJ, ⟨subIdJ, J.obj []⟩)]) ∧
    (∀ e : EventData, testFS e (J.obj []) = true) := by
  constructor
  · have hnmax : ¬ conn.subs.length ≥ st.maxSub := by omega
    have hres : (do_sub env st sid [J.str "REQ", subIdJ]).state
        = { st with ws := wsSet st.ws sid ⟨conn.subs ++ [(subIdJ, ⟨subIdJ, J.obj []⟩)]⟩ } := by
      cases hgf : env.getFilter (J.obj []) <;>
        simp [do_sub, hconn, hdup, hnmax, hgf, subsInsert]
    refine ⟨⟨conn.subs ++ [(subIdJ, ⟨subIdJ, J.obj []⟩)]⟩, ?_, rfl⟩
    rw [hres]
    exact wsGet_wsSet_self st.ws sid _ (by simp [hconn])
  · intro e
    rfl

/-- A connection with no subscriptions yet, socket 0. -/
def connEmpty : WSConn := ⟨[]⟩

/-- A fresh one-connection relay. -/
def stOneConn : RelayState := ⟨[(0, connEmpty)], 1, 3, true⟩

/-- C6 witness: the zero-filter `REQ` on a fresh connection registers the
match-all subscription, and a concrete event passes it. -/
theorem req_zero_filters_witness :
    ((∃ conn2, wsGet (do_sub envC3 stOneConn 0 [J.str "REQ", J.str "x"]).state.ws 0
        = some conn2 ∧
      conn2.subs = connEmpty.subs ++ [(J.str "x", ⟨J.str "x", J.obj []⟩)]) ∧
    (∀ e : EventData, testFS e (J.obj []) = true)) ∧
    testFS evtHi (J.obj []) = true :=
  ⟨req_zero_filters_match_all envC3 stOneConn 0 (J.str "x") connEmpty rfl rfl
      (by decide),
   rfl⟩

/-- C9: whatever the relay state and the incoming event, every delivery
scheduled by `_check_subs` targets a registered subscription whose filter
set the event passes at scheduling time — no event is scheduled for a
subscription it does not match — and the scheduled payload is the
event's JSON form. -/
theorem fanout_delivers_only_matching (st : RelayState) (evt : EventData)
    (sid : Nat) (subIdJ payload : J)
    (h : (sid, subIdJ, payload) ∈ check_subs st evt) :
    ∃ conn sub, (sid, conn) ∈ st.ws ∧ (subIdJ, sub) ∈ conn.subs ∧
      testFS evt sub.filter = true ∧ payload = evt.event_data := by
  simp only [check_subs, List.mem_flatMap, List.mem_filterMap] at h
  obtain ⟨sc, hsc, sb, hsb, hif⟩ := h
  by_cases ht : testFS evt sb.2.filter
  · rw [if_pos ht] at hif
    injection hif with hif
    rw [Prod.mk.injEq, Prod.mk.injEq] at hif
    obtain ⟨h1, h2, h3⟩ := hif
    refine ⟨sc.2, sb.2, ?_, ?_, ht, h3.symm⟩
    · rw [← h1]
      simpa using hsc
    · rw [← h2]
      simpa using hsb
  · rw [if_neg ht] at hif
    cases hif

/-- C9 witness: the matching theorem applied to the concrete fan-out of
`evtHi` into the match-all subscription `"x"`. -/
theorem fanout_matching_witness :
    ∃ conn sub, (0, conn) ∈ stMatchAll.ws ∧ (J.str "x", sub) ∈ conn.subs ∧
      testFS evtHi sub.filter = true ∧ evtHi.event_data = evtHi.event_data :=
  fanout_delivers_only_matching stMatchAll evtHi 0 (J.str "x") evtHi.event_data
    (by exact List.Mem.head _)

/-- C10 (amended): `_do_sub` inserts the subscription into the registry
*before* calling `store.get_filter`; when the store query raises, the
insertion is not rolled back — the subscription stays registered — no
frame (in particular no `EOSE`) has been sent, and the exception escapes
the dispatcher.  A *backfill send* failure, however, is swallowed inside
the detached `_do_send` task, so — against the original claim — `EOSE`
is still sent in that case: see the counterexample. -/
theorem sub_registered_before_backfill (env : Env) (st : RelayState) (sid : Nat)
    (subIdJ : J) (conn : WSConn) (e : PyErr)
    (hconn : wsGet st.ws sid = some conn)
    (hdup : subsHas conn.subs subIdJ = false)
    (hmax : conn.subs.length < st.maxSub)
    (hfail : env.getFilter (J.obj []) = .error e) :
    (∃ conn2, wsGet (do_sub env st sid [J.str "REQ", subIdJ]).state.ws sid
        = some conn2 ∧
      conn2.subs = conn.subs ++ [(subIdJ, ⟨subIdJ, J.obj []⟩)]) ∧
    (do_sub env st sid [J.str "REQ", subIdJ]).frames = [] ∧
    (do_sub env st sid [J.str "REQ", subIdJ]).err = some e := by
  have hnmax : ¬ conn.subs.length ≥ st.maxSub := by omega
  have hres : do_sub env st sid [J.str "REQ", subIdJ]
      = ⟨{ st with ws := wsSet st.ws sid ⟨conn.subs ++ [(subIdJ, ⟨subIdJ, J.obj []⟩)]⟩ },
         [], [], some e⟩ := by
    simp [do_sub, hconn, hdup, hnmax, hfail, subsInsert]
  rw [hres]
  exact ⟨⟨_, wsGet_wsSet_self st.ws sid _ (by simp [hconn]), rfl⟩, rfl, rfl⟩

/-- An environment whose store query raises (e.g. a locked database). -/
def envStoreFail : Env :=
  { parse := fun _ => none,
    fromJSON := fun _ => .error (.otherError "unused"),
    isValid := fun _ => false,
    addEvent := fun _ => none,
    getFilter := fun _ => .error (.otherError "database is locked"),
    sendOk := fun _ => true,
    accept := [] }

/-- C10 witness: the store-failure theorem at a concrete `REQ` on a fresh
connection. -/
theorem sub_registered_before_backfill_witness :
    (∃ conn2, wsGet (do_sub envStoreFail stOneConn 0 [J.str "REQ", J.str "x"]).state.ws 0
        = some conn2 ∧
      conn2.subs = connEmpty.subs ++ [(J.str "x", ⟨J.str "x", J.obj []⟩)]) ∧
    (do_sub envStoreFail stOneConn 0 [J.str "REQ", J.str "x"]).frames = [] ∧
    (do_sub envStoreFail stOneConn 0 [J.str "REQ", J.str "x"]).err
      = some (.otherError "database is locked") :=
  sub_registered_before_backfill envStoreFail stOneConn 0 (J.str "x") connEmpty
    (.otherError "database is locked") rfl rfl (by decide) rfl

/-- An environment with one stored event whose backfill send fails (the
first write on the socket errors, later writes succeed). -/
def envSendFail : Env :=
  { parse := fun _ => none,
    fromJSON := fun _ => .error (.otherError "unused"),
    isValid := fun _ => false,
    addEvent := fun _ => none,
    getFilter := fun _ => .ok [J.str "e1"],
    sendOk := fun i => i != 0,
    accept := [] }

/-- C10 counterexample: when a backfill send fails, `_do_send` swallows
the error and `_do_sub` proceeds: the `EOSE` frame *is* sent (and no
exception escapes), against the claim that no `EOSE` is sent when a
backfill send fails. -/
theorem backfill_send_failure_still_sends_eose :
    (do_sub envSendFail stOneConn 0 [J.str "REQ", J.str "x"]).frames
      = [Frame.eose (J.str "x")] ∧
    (do_sub envSendFail stOneConn 0 [J.str "REQ", J.str "x"]).err = none := ⟨rfl, rfl⟩

/-- C8 (amended): a socket write failure during fan-out delivery affects
only that delivery: deliveries to sockets whose writes succeed are all
performed, frames appear only on sockets whose writes succeed, and the
relay state — including the failing connection's entry and registry — is
completely unchanged.  The code performs no `CLOSING` transition on a
write error: `_do_send` only logs it (see the counterexample). -/
theorem fanout_write_failure_isolated (sendOkSock : Nat → Bool) (st : RelayState)
    (evt : EventData) :
    (check_subs_run sendOkSock st evt).1 = st ∧
    (∀ sid subIdJ payload, (sid, subIdJ, payload) ∈ check_subs st evt →
      sendOkSock sid = true →
      (sid, Frame.event subIdJ payload) ∈ (check_subs_run sendOkSock st evt).2) ∧
    (∀ sid f, (sid, f) ∈ (check_subs_run sendOkSock st evt).2 →
      sendOkSock sid = true) := by
  refine ⟨rfl, ?_, ?_⟩
  · intro sid subIdJ payload hmem hok
    simp only [check_subs_run, run_fanout, List.mem_flatMap]
    exact ⟨(sid, subIdJ, payload), hmem, by simp [do_send_exec, hok]⟩
  · intro sid f hmem
    simp only [check_subs_run, run_fanout, List.mem_flatMap] at hmem
    obtain ⟨s, hs, hf⟩ := hmem
    cases hok : sendOkSock s.1 with
    | true =>
      simp only [do_send_exec, hok, if_true, List.map_cons, List.map_nil,
        List.mem_singleton] at hf
      rw [Prod.mk.injEq] at hf
      obtain ⟨h1, h2⟩ := hf
      rw [h1]
      exact hok
    | false =>
      simp [do_send_exec, hok] at hf

/-- A second connection (socket 1) with the match-all subscription `"y"`. -/
def connY : WSConn := ⟨[(J.str "y", ⟨J.str "y", J.obj []⟩)]⟩

/-- Two live connections: socket 0 subscribes `"x"`, socket 1 subscribes
`"y"`. -/
def st2 : RelayState := ⟨[(0, connMatchAll), (1, connY)], 2, 3, true⟩

/-- Write outcomes where socket 0's sends fail and every other socket's
succeed. -/
def failSock0 : Nat → Bool := fun i => i != 0

/-- C8 witness: with socket 0 failing, the state is unchanged and the
delivery to socket 1 is still performed. -/
theorem fanout_write_failure_witness :
    (check_subs_run failSock0 st2 evtHi).1 = st2 ∧
    (1, Frame.event (J.str "y") evtHi.event_data)
      ∈ (check_subs_run failSock0 st2 evtHi).2 ∧
    failSock0 1 = true :=
  ⟨(fanout_write_failure_isolated failSock0 st2 evtHi).1,
   (fanout_write_failure_isolated failSock0 st2 evtHi).2.1 1 (J.str "y")
     evtHi.event_data (by exact List.Mem.tail _ (List.Mem.head _)) rfl,
   rfl⟩

/-- C8 counterexample: socket 0's write fails, yet after the fan-out the
connection table is untouched — connection 0 is still present with its
registry intact, in no `CLOSING` state and not removed — while socket 1
received its frame; the claim's "failing connection transitions to the
CLOSING state" matches nothing in the code, whose `_do_send` only logs
the error. -/
theorem failing_socket_connection_unchanged :
    (check_subs_run failSock0 st2 evtHi).1 = st2 ∧
    wsGet (check_subs_run failSock0 st2 evtHi).1.ws 0 = some connMatchAll ∧
    (check_subs_run failSock0 st2 evtHi).2
      = [(1, Frame.event (J.str "y") evtHi.event_data)] := ⟨rfl, rfl, rfl⟩

end Monstr
